import Mathlib

/-!
Verification development for the NPC movement decision engine of the
`unity-Small_Project` repository (FastAPI backend under `app/`).

The embedding is a shallow translation of the Python sources:

* `app/utils/helpers.py`          — `clamp_position_to_bounds`
* `app/services/npc_memory_service.py` — visit history, recency check, save
* `app/services/movement_service.py`   — LLM output parser, fallback planner,
  `decide_npc_movement` orchestration
* `app/core/config.py`            — the numeric settings

Modelling conventions, used consistently below:

* Python floats are modelled as rationals (`ℚ`).  Every arithmetic operation
  that the translated code paths perform (`+`, `-`, `*`, `min`, `max`,
  comparisons) is exact over `ℚ`, so no floating-point rounding concern is
  introduced by the claims under study.
* `math.hypot` / `Position.distance_to` only ever feeds comparisons against
  non-negative constants in the translated code, so distances are represented
  by their squares (`dist2`) and every comparison `dist < c` is translated to
  `dist2 < c ^ 2` (equivalent for `c ≥ 0` since squaring is monotone on
  non-negative reals).
* Python strings are modelled as character lists (`PyStr := List Char`);
  `str.lower()` becomes a character-wise `Char.toLower` map (the relevant
  source strings are ASCII) and the `in` containment test becomes an
  executable scan.
* Effectful collaborators (the LLM transport, `yaml.safe_load`, the `re`
  regex searches, `random.*`) are modelled as explicit oracle inputs: a
  record of functions passed to the translated code.  The translated control
  flow around them follows the Python source line by line.
* Timestamps (`datetime`) are modelled as rationals counting seconds, so that
  `(a - b).total_seconds()` becomes plain subtraction.
* An exception that the translated code itself raises and does not catch is
  modelled with `Except Unit`: the fallback planner's revisit check
  (movement_service.py line 225) passes a raw `datetime` where
  `has_been_visited_recently` expects a `GameTime`, so the method body's
  `.current_timestamp` dereference (npc_memory_service.py line 208) raises
  `AttributeError` on the first history entry; that error propagates out of
  `decide_npc_movement`, whose fallback path therefore returns
  `Except.error` in the embedding.
-/

namespace Npc

/-! ### Python strings -/

/-- A Python string, as a list of characters. -/
abbrev PyStr := List Char

/-- Python `s.lower()` (character-wise; the strings the engine lowers are
ASCII identifiers and notes). -/
def pyLower (s : PyStr) : PyStr := s.map Char.toLower

/-- Python substring containment `sub in s`. -/
def containsSub (s sub : PyStr) : Bool :=
  match s with
  | [] => sub.isEmpty
  | _ :: t => sub.isPrefixOf s || containsSub t sub

/-- Python falsy-or-blank test `not s or not s.strip()`: true iff the string
has no non-whitespace character. -/
def pyBlank (s : PyStr) : Bool := s.all Char.isWhitespace

/-! ### Settings — `app/core/config.py` -/

/-- Setting `MAX_LOCATIONS_IN_MEMORY: int = 20` (config.py). -/
def MAX_LOCATIONS_IN_MEMORY : Nat := 20

/-- Setting `VISIT_THRESHOLD_DISTANCE: float = 5.0` (config.py). -/
def VISIT_THRESHOLD_DISTANCE : ℚ := 5

/-- Setting `REVISIT_INTERVAL_SECONDS: int = 120` (config.py). -/
def REVISIT_INTERVAL_SECONDS : ℚ := 120

/-- Setting `MIN_SEARCH_DISTANCE_FOR_NEW_POINT: float = 10.0` (config.py). -/
def MIN_SEARCH_DISTANCE_FOR_NEW_POINT : ℚ := 10

/-- Setting `MAX_SEARCH_DISTANCE_FOR_NEW_POINT: float = 100.0` (config.py). -/
def MAX_SEARCH_DISTANCE_FOR_NEW_POINT : ℚ := 100

/-- Setting `SCENE_BOUNDARY_BUFFER: float = 1.0` (config.py). -/
def SCENE_BOUNDARY_BUFFER : ℚ := 1

/-! ### Data model — `app/core/schemas.py` -/

/-- Model of `Position` (schemas.py): a planar point. -/
structure Position where
  x : ℚ
  y : ℚ
deriving DecidableEq

/-- Squared Euclidean distance.  `Position.distance_to` in the source is
`math.hypot(self.x - other.x, self.y - other.y)`; the code only compares the
distance against non-negative constants or other distances, so the square is
an equivalent representation. -/
def dist2 (a b : Position) : ℚ :=
  (a.x - b.x) ^ 2 + (a.y - b.y) ^ 2

/-- Model of `SceneBoundaryInfo` (schemas.py). -/
structure SceneBoundaryInfo where
  min_x : ℚ
  max_x : ℚ
  min_y : ℚ
  max_y : ℚ
deriving DecidableEq

/-- Model of `VisitedLocationEntry` (schemas.py): a `Position` plus a visit
timestamp. -/
structure VisitedLocationEntry where
  x : ℚ
  y : ℚ
  timestamp_visited : ℚ
deriving DecidableEq

/-! ### Spatial utilities — `app/utils/helpers.py` -/

/-- One axis of `clamp_position_to_bounds` (helpers.py lines 107-120):
`effective_min/effective_max` with the buffer-degradation conditionals of the
source, then the `final_min = min(...)`, `final_max = max(...)` range.
The Python condition `bounds.max_x > bounds.min_x + 2 * effective_buffer`
is written `minV + 2 * buffer < maxV`. -/
def clampAxisRange (minV maxV buffer : ℚ) : ℚ × ℚ :=
  let effMin := min (minV + buffer)
    (if minV + 2 * buffer < maxV then maxV - buffer else minV + buffer)
  let effMax := max (maxV - buffer)
    (if minV < maxV - 2 * buffer then minV + buffer else maxV - buffer)
  (min effMin effMax, max effMin effMax)

/-- Translation of `clamp_position_to_bounds(x, y, bounds, buffer)` (helpers.py):
`clamped = max(final_min, min(v, final_max))` on each axis.  The
`buffer=None → settings.SCENE_BOUNDARY_BUFFER` defaulting is resolved at the
call sites, which pass the effective buffer explicitly. -/
def clampPositionToBounds (x y : ℚ) (bounds : SceneBoundaryInfo)
    (buffer : ℚ) : ℚ × ℚ :=
  (max (clampAxisRange bounds.min_x bounds.max_x buffer).1
      (min x (clampAxisRange bounds.min_x bounds.max_x buffer).2),
   max (clampAxisRange bounds.min_y bounds.max_y buffer).1
      (min y (clampAxisRange bounds.min_y bounds.max_y buffer).2))

/-! ### NPC memory store — `app/services/npc_memory_service.py` -/

/-- Keeps the last `n` elements of a list: Python `l[-n:]` for `n > 0`. -/
def lastN (n : Nat) (l : List α) : List α :=
  l.drop (l.length - n)

/-- Translation of `add_visited_location` (npc_memory_service.py lines 191-198): append the
new entry, then truncate with
`short_term_location_history[-settings.MAX_LOCATIONS_IN_MEMORY:]`. -/
def addVisitedLocation (hist : List VisitedLocationEntry)
    (x y timestamp : ℚ) : List VisitedLocationEntry :=
  lastN MAX_LOCATIONS_IN_MEMORY (hist ++ [⟨x, y, timestamp⟩])

/-- Translation of `has_been_visited_recently(x, y, current_game_time)`
(npc_memory_service.py lines 200-213): true iff some stored entry satisfies
`distance < VISIT_THRESHOLD_DISTANCE and
time_since_visit.total_seconds() < REVISIT_INTERVAL_SECONDS`.
The source computes `time_since_visit = current_timestamp - timestamp_visited`
and imposes no lower bound on it. -/
def hasBeenVisitedRecently (hist : List VisitedLocationEntry)
    (x y currentTimestamp : ℚ) : Bool :=
  hist.any fun loc =>
    decide (dist2 ⟨loc.x, loc.y⟩ ⟨x, y⟩ < VISIT_THRESHOLD_DISTANCE ^ 2 ∧
      currentTimestamp - loc.timestamp_visited < REVISIT_INTERVAL_SECONDS)

/-- The cached-record aggregate of `NPCMemoryService`, restricted to the
fields the translated operations touch (`npc_id`, `last_saved_at`, the visit
history). -/
structure NPCMemoryFile where
  npc_id : PyStr
  last_saved_at : ℚ
  short_term_location_history : List VisitedLocationEntry
deriving DecidableEq

/-- The per-instance mutable state of `NPCMemoryService`:
`_cached_memory_data` and `_is_dirty`. -/
structure MemState where
  cached : Option NPCMemoryFile
  isDirty : Bool
deriving DecidableEq

/-- Translation of `save_memory_to_file(force_save)` (npc_memory_service.py lines 130-159).
The file write is an external effect, so its outcome is the oracle input
`writeOk`; `now` stands for `default_aware_utcnow()`.  Returns the new state
and whether a write was attempted.  Control flow mirrors the source: early
return when neither dirty nor forced; early return when the cache is empty;
otherwise stamp `last_saved_at`, attempt the write, and clear the dirty flag
only on success (the `except` branch of the source logs, leaves the flag
untouched, and swallows the error). -/
def saveMemoryToFile (st : MemState) (forceSave : Bool) (now : ℚ)
    (writeOk : Bool) : MemState × Bool :=
  if !st.isDirty && !forceSave then (st, false)
  else
    match st.cached with
    | none => (st, false)
    | some mem =>
      let mem2 := { mem with last_saved_at := now }
      if writeOk then ({ cached := some mem2, isDirty := false }, true)
      else ({ cached := some mem2, isDirty := st.isDirty }, true)

/-! ### LLM decision parser — `_parse_structured_llm_movement_output`
(movement_service.py lines 75-161)

`yaml.safe_load` and the `re.search` calls are external text-processing
machinery; they enter the embedding as oracle functions, while every branch
of the surrounding Python control flow is translated concretely. -/

/-- A YAML scalar or mapping as far as the parser inspects it.  Scalar
values are carried as the string Python's `str()` would produce for them
(the code only ever applies `str(...)` to them or stores them raw). -/
inductive YVal where
  | vStr (s : PyStr)
  | vNull
  | vMap (entries : List (PyStr × YVal))

/-- Python `str()` of a parsed YAML scalar, as used by the
`str(pa_data.get(..., "No")).lower() == "yes"` flag checks. -/
def pythonStr : YVal → PyStr
  | .vStr s => s
  | .vNull => "None".data
  | .vMap _ => "<map>".data

/-- Python `dict.get` on the decoded YAML mapping. -/
def ylookup (d : List (PyStr × YVal)) (k : PyStr) : Option YVal :=
  (d.find? fun e => e.1 == k).map fun e => e.2

/-- One `priority_analysis` flag:
`str(pa_data.get(key, "No")).lower() == "yes"`. -/
def yesFlag (pa : List (PyStr × YVal)) (k : PyStr) : Bool :=
  pyLower (pythonStr ((ylookup pa k).getD (.vStr "No".data))) == "yes".data

/-- The `priority_analysis` sub-mapping of the parsed decision. -/
structure PriorityAnalysis where
  dialogue_driven : Bool
  schedule_driven : Bool
  emotion_driven : Bool
  memory_driven : Bool
  social_interaction_considered : Bool
  access_rules_consideration : Bool
  exploration_driven : Bool
deriving DecidableEq

/-- The parser's result dictionary: the five keys the source initializes in
`parsed_data` and never removes (so the record type carries exactly those
fields — key-completeness is structural). -/
structure ParsedDecision where
  priority_analysis : PriorityAnalysis
  reasoning : PyStr
  chosen_action : PyStr
  target_coordinates : Option PyStr
  resulting_emotion_tag : PyStr
deriving DecidableEq

/-- The literal defaults assigned to `parsed_data` at the top of
`_parse_structured_llm_movement_output`. -/
def defaultParsedDecision : ParsedDecision where
  priority_analysis :=
    ⟨false, false, false, false, false, false, false⟩
  reasoning :=
    "LLM did not provide clear reasoning or response was unparsable.".data
  chosen_action := "No specific action determined by LLM.".data
  target_coordinates := none
  resulting_emotion_tag := "no_change".data

/-- Oracle for the text-processing collaborators of the parser:
`_clean_llm_response_for_yaml` (a pure string transformation whose details
the claims do not depend on), `yaml.safe_load` (`none` models a raised
`yaml.YAMLError`), and the five `re.search` extractions of the regex
fallback (each returning the captured, stripped text, or `none` when its
pattern does not match). -/
structure ParserOracle where
  clean : PyStr → PyStr
  yamlLoad : PyStr → Option YVal
  paBlock : PyStr → Option PyStr
  flagYes : PyStr → PyStr → Bool
  reasoningMatch : PyStr → Option PyStr
  actionMatch : PyStr → Option PyStr
  coordsMatch : PyStr → Option PyStr
  emotionMatch : PyStr → Option PyStr

/-- Translation of `_parse_structured_llm_movement_output(llm_text_response)`
(movement_service.py lines 75-161), branch for branch:

1. empty / whitespace-only input → defaults;
2. input that cleans to the empty string → defaults;
3. `yaml.safe_load` succeeding with a mapping → field-wise extraction with
   per-key defaults (a non-mapping `priority_analysis` keeps the default
   flags);
4. otherwise (non-mapping YAML or `yaml.YAMLError`) → the regex fallback on
   the ORIGINAL text, each field keeping its default when its pattern does
   not match. -/
def parseStructuredLlmMovementOutput (o : ParserOracle)
    (llmTextResponse : PyStr) : ParsedDecision :=
  if pyBlank llmTextResponse then defaultParsedDecision
  else
    let cleaned := o.clean llmTextResponse
    if cleaned.isEmpty then defaultParsedDecision
    else
      match o.yamlLoad cleaned with
      | some (.vMap d) =>
        { priority_analysis :=
            match ylookup d "priority_analysis".data with
            | some (.vMap pa) =>
              ⟨yesFlag pa "dialogue_driven".data,
               yesFlag pa "schedule_driven".data,
               yesFlag pa "emotion_driven".data,
               yesFlag pa "memory_driven".data,
               yesFlag pa "social_interaction_considered".data,
               yesFlag pa "access_rules_consideration".data,
               yesFlag pa "exploration_driven".data⟩
            | _ => defaultParsedDecision.priority_analysis
          reasoning :=
            match ylookup d "reasoning".data with
            | some v => pythonStr v
            | none => defaultParsedDecision.reasoning
          chosen_action :=
            match ylookup d "chosen_action".data with
            | some v => pythonStr v
            | none => defaultParsedDecision.chosen_action
          target_coordinates :=
            match ylookup d "target_coordinates".data with
            | some (.vStr s) => some s
            | _ => none
          resulting_emotion_tag :=
            match ylookup d "resulting_emotion_tag".data with
            | some v => pythonStr v
            | none => defaultParsedDecision.resulting_emotion_tag }
      | _ =>
        { priority_analysis :=
            match o.paBlock llmTextResponse with
            | some block =>
              ⟨o.flagYes block "dialogue_driven".data,
               o.flagYes block "schedule_driven".data,
               o.flagYes block "emotion_driven".data,
               o.flagYes block "memory_driven".data,
               o.flagYes block "social_interaction_considered".data,
               o.flagYes block "access_rules_consideration".data,
               o.flagYes block "exploration_driven".data⟩
            | none => defaultParsedDecision.priority_analysis
          reasoning :=
            (o.reasoningMatch llmTextResponse).getD
              defaultParsedDecision.reasoning
          chosen_action :=
            (o.actionMatch llmTextResponse).getD
              defaultParsedDecision.chosen_action
          target_coordinates :=
            match o.coordsMatch llmTextResponse with
            | some s => some s
            | none => defaultParsedDecision.target_coordinates
          resulting_emotion_tag :=
            (o.emotionMatch llmTextResponse).getD
              defaultParsedDecision.resulting_emotion_tag }

/-- The condition under which the parser's input is entirely unusable: the
YAML tier does not produce a mapping (error or non-mapping value) and none
of the regex fallback patterns matches the original text. -/
def entirelyUnparseable (o : ParserOracle) (s : PyStr) : Prop :=
  (∀ d, o.yamlLoad (o.clean s) ≠ some (.vMap d)) ∧
  o.paBlock s = none ∧ o.reasoningMatch s = none ∧ o.actionMatch s = none ∧
  o.coordsMatch s = none ∧ o.emotionMatch s = none

/-! ### Fallback exploration planner — `_find_fallback_exploration_target`
(movement_service.py lines 163-249) -/

/-- Model of `LandmarkContextInfo` (schemas.py), with `entrance_positions` already
normalized to positions (the source's
`_extract_entrance_positions_from_landmark` converts dict entries to
`Position` and drops malformed ones; the embedding carries the resulting
list). -/
structure LandmarkContextInfo where
  landmark_name : PyStr
  position : Position
  landmark_type_tag : Option PyStr
  owner_id : Option PyStr
  current_status_notes : List PyStr
  entrance_positions : List Position
deriving DecidableEq

/-- Model of `EntityContextInfo` (schemas.py), restricted to the coordinates the
fallback planner reads. -/
structure EntityContextInfo where
  npc_id : PyStr
  x : ℚ
  y : ℚ
deriving DecidableEq

/-- One status note marking a bathroom occupied by someone else:
`"occupancy_occupied" in note.lower() and npc_id.lower() not in note.lower()`
(movement_service.py lines 179 and 392). -/
def noteOccupiedByOther (npcId note : PyStr) : Bool :=
  containsSub (pyLower note) "occupancy_occupied".data &&
    !containsSub (pyLower note) (pyLower npcId)

/-- Python `any(... for note in lm.current_status_notes)` of the above. -/
def bathroomOccupiedByOther (npcId : PyStr)
    (lm : LandmarkContextInfo) : Bool :=
  lm.current_status_notes.any (noteOccupiedByOther npcId)

/-- The accessibility check of the fallback planner (movement_service.py
lines 177-183): a bathroom is inaccessible when occupied by another NPC; a
bedroom owned by a different (truthy) owner is inaccessible when some status
note contains `"owner_presence_absent"`; everything else is accessible. -/
def fallbackAccessible (npcId : PyStr) (lm : LandmarkContextInfo) : Bool :=
  if lm.landmark_type_tag = some "bathroom".data then
    !bathroomOccupiedByOther npcId lm
  else
    match lm.owner_id with
    | some owner =>
      if lm.landmark_type_tag = some "bedroom".data ∧ owner ≠ [] ∧
          pyLower owner ≠ pyLower npcId then
        !lm.current_status_notes.any fun note =>
          containsSub (pyLower note) "owner_presence_absent".data
      else true
    | none => true

/-- The landmark candidate band (movement_service.py line 190):
`MIN_SEARCH_DISTANCE_FOR_NEW_POINT * 0.5 <= dist <=
MAX_SEARCH_DISTANCE_FOR_NEW_POINT * 0.7`, via squared distances. -/
def inSearchBand (currentPos lmPos : Position) : Bool :=
  decide ((MIN_SEARCH_DISTANCE_FOR_NEW_POINT * (1 / 2)) ^ 2 ≤
      dist2 currentPos lmPos ∧
    dist2 currentPos lmPos ≤
      (MAX_SEARCH_DISTANCE_FOR_NEW_POINT * (7 / 10)) ^ 2)

/-- The base desirability score of a landmark candidate
(movement_service.py lines 191-195): 50, plus 20 for the social rooms, plus
15 for the NPC's own bedroom. -/
def landmarkBaseScore (npcId : PyStr) (lm : LandmarkContextInfo) : ℚ :=
  if lm.landmark_type_tag = some "living_room".data ∨
      lm.landmark_type_tag = some "kitchen".data ∨
      lm.landmark_type_tag = some "dining_room".data then 50 + 20
  else
    match lm.owner_id with
    | some owner =>
      if lm.landmark_type_tag = some "bedroom".data ∧ owner ≠ [] ∧
          pyLower owner = pyLower npcId then 50 + 15
      else 50
    | none => 50

/-- A raw fallback candidate before clamping and scoring
(the `potential_targets` dicts of the source). -/
structure RawCandidate where
  x : ℚ
  y : ℚ
  baseScore : ℚ
deriving DecidableEq

/-- A scored fallback candidate after clamping
(the `scored_targets` dicts of the source). -/
structure ScoredCandidate where
  x : ℚ
  y : ℚ
  score : ℚ
deriving DecidableEq

/-- The landmark part of `potential_targets` (movement_service.py lines
176-196): accessible landmarks inside the search band, with their base
score. -/
def landmarkCandidates (npcId : PyStr) (currentPos : Position)
    (landmarks : List LandmarkContextInfo) : List RawCandidate :=
  landmarks.filterMap fun lm =>
    if fallbackAccessible npcId lm && inSearchBand currentPos lm.position then
      some ⟨lm.position.x, lm.position.y, landmarkBaseScore npcId lm⟩
    else none

/-- Oracle for the planner's `random` usage: the ten `random_explore_i`
points generated on random rays (their raw coordinates, before clamping),
the per-candidate `random.uniform(-15, 15)` jitter, and the two emergency
`random.uniform(min+buffer, max-buffer)` draws. -/
structure FallbackRng where
  randomPoints : List Position
  jitter : Nat → ℚ
  emergency1 : Position
  emergency2 : Position

/-- Translation of the call
`memory_service.has_been_visited_recently(x_clamped, y_clamped,
current_game_time.current_timestamp)` the fallback planner makes
(movement_service.py line 225).  The third argument is the raw `datetime`,
not the `GameTime` the method's signature declares, so the method body's
`current_game_time.current_timestamp - loc.timestamp_visited`
(npc_memory_service.py line 208) dereferences `.current_timestamp` on a
`datetime` and raises `AttributeError` in the FIRST loop iteration — i.e.
for every non-empty visit history; with an empty history the loop never
runs and `False` is returned.  `Except.error ()` models the raised
exception; the arguments are those the call passes. -/
def hasBeenVisitedRecentlyMistyped (hist : List VisitedLocationEntry)
    (_x _y _timestampArg : ℚ) : Except Unit Bool :=
  match hist with
  | [] => .ok false
  | _ :: _ => .error ()

/-- Scoring of one potential target (movement_service.py lines 216-239):
clamp into bounds with `SCENE_BOUNDARY_BUFFER`, discard when the clamped
point is within `MIN_SEARCH_DISTANCE_FOR_NEW_POINT * 0.3` of the current
position, then adjust the base score by the revisit bonus/penalty (skipped
when the game time is invalid), the per-entity proximity penalty (−25 for
each entity closer than 2.0), and the jitter.  The revisit bonus/penalty
goes through the mistyped `has_been_visited_recently` call, so its
`AttributeError` (raised whenever the history is non-empty) propagates out
as `Except.error`. -/
def scoreCandidate (rng : FallbackRng) (currentPos : Position)
    (bounds : SceneBoundaryInfo) (hist : List VisitedLocationEntry)
    (gameTime : Option ℚ) (otherEntities : List EntityContextInfo)
    (i : Nat) (pt : RawCandidate) :
    Except Unit (Option ScoredCandidate) :=
  let c := clampPositionToBounds pt.x pt.y bounds SCENE_BOUNDARY_BUFFER
  if dist2 currentPos ⟨c.1, c.2⟩ <
      (MIN_SEARCH_DISTANCE_FOR_NEW_POINT * (3 / 10)) ^ 2 then .ok none
  else
    let adjusted : Except Unit ℚ :=
      match gameTime with
      | some t =>
        match hasBeenVisitedRecentlyMistyped hist c.1 c.2 t with
        | .error e => .error e
        | .ok visited => .ok (if visited then -300 else 100)
      | none => .ok 0
    match adjusted with
    | .error e => .error e
    | .ok adj =>
      let score2 := pt.baseScore + adj -
        25 * ((otherEntities.filter fun e =>
          decide (dist2 ⟨c.1, c.2⟩ ⟨e.x, e.y⟩ < 2 ^ 2)).length : ℚ)
      .ok (some ⟨c.1, c.2, score2 + rng.jitter i⟩)

/-- Translation of `sorted(scored_targets, key=score, reverse=True)[0]`: Python's stable
descending sort followed by taking the head returns the first element whose
score is maximal, i.e. a left fold that replaces the accumulator only on a
strictly greater score. -/
def selectBest (l : List ScoredCandidate) : Option ScoredCandidate :=
  match l with
  | [] => none
  | a :: as =>
    some (as.foldl (fun b s => if b.score < s.score then s else b) a)

/-- The full `potential_targets` list (movement_service.py lines 174-207):
landmark candidates followed by the random ray points with base score 30. -/
def fallbackPotentialTargets (rng : FallbackRng) (npcId : PyStr)
    (currentPos : Position)
    (landmarks : List LandmarkContextInfo) : List RawCandidate :=
  landmarkCandidates npcId currentPos landmarks ++
    rng.randomPoints.map fun p => (⟨p.x, p.y, 30⟩ : RawCandidate)

/-- The scoring loop over `potential_targets` (movement_service.py lines
216-239), in iteration order: a discarded candidate contributes nothing, a
surviving candidate is appended, and the first raised `AttributeError`
aborts the whole loop (and with it the surrounding function). -/
def scoreCandidatesLoop (rng : FallbackRng) (currentPos : Position)
    (bounds : SceneBoundaryInfo) (hist : List VisitedLocationEntry)
    (gameTime : Option ℚ) (otherEntities : List EntityContextInfo) :
    List (Nat × RawCandidate) → Except Unit (List ScoredCandidate)
  | [] => .ok []
  | ic :: rest =>
    match scoreCandidate rng currentPos bounds hist gameTime otherEntities
        ic.1 ic.2 with
    | .error e => .error e
    | .ok none =>
      scoreCandidatesLoop rng currentPos bounds hist gameTime otherEntities
        rest
    | .ok (some s) =>
      match scoreCandidatesLoop rng currentPos bounds hist gameTime
          otherEntities rest with
      | .error e => .error e
      | .ok l => .ok (s :: l)

/-- The `scored_targets` list (movement_service.py lines 216-239): clamp,
filter and score every potential target, propagating the revisit check's
exception. -/
def fallbackScoredTargets (rng : FallbackRng) (npcId : PyStr)
    (currentPos : Position) (landmarks : List LandmarkContextInfo)
    (bounds : SceneBoundaryInfo) (hist : List VisitedLocationEntry)
    (gameTime : Option ℚ) (otherEntities : List EntityContextInfo) :
    Except Unit (List ScoredCandidate) :=
  scoreCandidatesLoop rng currentPos bounds hist gameTime otherEntities
    (fallbackPotentialTargets rng npcId currentPos landmarks).enum

/-- Translation of `_find_fallback_exploration_target` (movement_service.py lines 163-249):
landmark candidates plus the random ray points; emergency uniform point when
no potential targets exist; otherwise clamp/score/filter each candidate and
return the best, or a second emergency point when all candidates were
filtered out.  The scoring loop's `AttributeError` (mistyped revisit check)
propagates: the function has no handler for it. -/
def findFallbackExplorationTarget (rng : FallbackRng) (npcId : PyStr)
    (currentPos : Position) (landmarks : List LandmarkContextInfo)
    (bounds : SceneBoundaryInfo) (hist : List VisitedLocationEntry)
    (gameTime : Option ℚ)
    (otherEntities : List EntityContextInfo) : Except Unit (ℚ × ℚ) :=
  if fallbackPotentialTargets rng npcId currentPos landmarks = [] then
    .ok (rng.emergency1.x, rng.emergency1.y)
  else
    match fallbackScoredTargets rng npcId currentPos landmarks bounds hist
        gameTime otherEntities with
    | .error e => .error e
    | .ok scored =>
      match selectBest scored with
      | some best => .ok (best.x, best.y)
      | none => .ok (rng.emergency2.x, rng.emergency2.y)

/-! ### Movement decision engine — `decide_npc_movement`
(movement_service.py lines 293-512) -/

/-- First element minimizing `f`, i.e. Python's stable
`sorted(l, key=f)[0]` (ties keep the earlier element, so the fold replaces
the accumulator only on a strictly smaller key). -/
def argminBy (f : α → ℚ) : List α → Option α
  | [] => none
  | a :: as => some (as.foldl (fun b s => if f s < f b then s else b) a)

/-- The `Position` branch of `_get_landmark_by_name_or_pos`
(movement_service.py lines 265-272): the landmark nearest to the target, if
it is within the proximity threshold 2.0 (squared comparison). -/
def getLandmarkByProximity (target : Position)
    (visibleLandmarks : List LandmarkContextInfo) :
    Option LandmarkContextInfo :=
  match argminBy (fun lm => dist2 lm.position target) visibleLandmarks with
  | some lm => if dist2 lm.position target < 2 ^ 2 then some lm else none
  | none => none

/-- The string branch of `_get_landmark_by_name_or_pos`
(movement_service.py lines 258-263): the first landmark whose lowercased
name equals the search term, or whose (truthy) lowercased type tag is a
substring of the search term. -/
def getLandmarkByName (term : PyStr)
    (visibleLandmarks : List LandmarkContextInfo) :
    Option LandmarkContextInfo :=
  visibleLandmarks.find? fun lm =>
    pyLower lm.landmark_name == pyLower term ||
      (match lm.landmark_type_tag with
       | some tag => !tag.isEmpty && containsSub (pyLower term) (pyLower tag)
       | none => false)

/-- Model of `NPCMovementRequest` (schemas.py), restricted to the fields
`decide_npc_movement` reads; `current_game_time` is the request timestamp in
seconds (`none` when `current_game_time.current_timestamp` is not a valid
datetime). -/
structure NPCMovementRequest where
  npc_id : PyStr
  current_npc_position : Position
  current_game_time : Option ℚ
  visible_landmarks : List LandmarkContextInfo
  nearby_entities : List EntityContextInfo
  scene_boundaries : SceneBoundaryInfo

/-- The decision fields of `NPCMovementResponse` that the engine computes
(identity fields and timing are carried through unchanged by the source). -/
structure MovementDecision where
  target_destination : Position
  chosen_action_summary : PyStr
  primary_decision_drivers : PriorityAnalysis
  llm_full_reasoning_text : PyStr

/-- Oracle for the engine's effectful collaborators: the chat-completion
call (`Except.error` models `generate_chat_completion` raising, e.g. a
connection error; `Except.ok raw` models a normal response whose extracted
`message.content` text is `raw`), the parser's text-processing oracle, the
regex machinery of `parse_coordinates_from_text` (helpers.py lines 11-85,
`none` models the "no pattern matched" `(None, None)` result), and the
fallback planner's randomness. -/
structure MovementOracle where
  llmResult : Except Unit PyStr
  parserO : ParserOracle
  parseCoords : PyStr → Option (ℚ × ℚ)
  rng : FallbackRng

/-- Decimal rendering of a rational, standing in for Python's `"{:.1f}"`
formatting in the fallback action string (never inspected by a claim). -/
def ratStr (q : ℚ) : PyStr := (toString q).data

/-- The chosen-action string the fallback branch writes into the parsed
output (movement_service.py line 442). -/
def fallbackActionString (fx fy : ℚ) : PyStr :=
  "Fallback exploration towards (".data ++ ratStr fx ++ ", ".data ++
    ratStr fy ++ ").".data

/-- Translation of `decide_npc_movement` (movement_service.py lines 293-512), decision
logic only (prompt construction, logging and the memory/emotion updates
mutate state the returned decision fields do not depend on; the reasoning
text is the parsed reasoning in every translated path):

* LLM phase: on an exception the `except` branch replaces the parsed output
  by parsing the empty string and leaves no chosen coordinates; otherwise
  the raw text is parsed and `parse_coordinates_from_text` is applied to a
  truthy `target_coordinates` string.
* With coordinates: associate a landmark by proximity, else (when the action
  text names a bathroom/toilet) by the `"bathroom"` search term; an occupied
  bathroom landmark with a defined entrance redirects the target to the
  closest entrance clamped with half the boundary buffer and overrides the
  action summary with the waiting message; otherwise the LLM target is
  clamped with the full buffer.
* Without coordinates: the fallback planner chooses the target, the chosen
  action becomes the fallback string and `exploration_driven` is forced
  true.  The engine's try/except (lines 329-370) covers only the LLM call
  and initial parsing; the fallback call at line 437 sits OUTSIDE it, so the
  `AttributeError` raised by the planner's mistyped revisit check escapes
  `decide_npc_movement` — modelled as the `Except.error` result. -/
def decideNpcMovement (o : MovementOracle) (req : NPCMovementRequest)
    (hist : List VisitedLocationEntry) : Except Unit MovementDecision :=
  let parsed : ParsedDecision :=
    match o.llmResult with
    | .ok raw => parseStructuredLlmMovementOutput o.parserO raw
    | .error _ => parseStructuredLlmMovementOutput o.parserO []
  let llmChosenTargetPos : Option Position :=
    match o.llmResult with
    | .error _ => none
    | .ok _ =>
      match parsed.target_coordinates with
      | some s =>
        if s ≠ [] then (o.parseCoords s).map fun p => (⟨p.1, p.2⟩ : Position)
        else none
      | none => none
  match llmChosenTargetPos with
  | some tpos =>
    let actionStr := parsed.chosen_action
    let finalTargetedLandmark :=
      match getLandmarkByProximity tpos req.visible_landmarks with
      | some lm => some lm
      | none =>
        if actionStr ≠ [] then
          if containsSub (pyLower actionStr) "bathroom".data ||
              containsSub (pyLower actionStr) "toilet".data then
            getLandmarkByName "bathroom".data req.visible_landmarks
          else none
        else none
    match finalTargetedLandmark with
    | some lm =>
      if lm.landmark_type_tag = some "bathroom".data ∧
          bathroomOccupiedByOther req.npc_id lm = true then
        match argminBy (fun p => dist2 req.current_npc_position p)
            lm.entrance_positions with
        | some bestWaitingSpot =>
          let c := clampPositionToBounds bestWaitingSpot.x bestWaitingSpot.y
            req.scene_boundaries (SCENE_BOUNDARY_BUFFER * (1 / 2))
          .ok { target_destination := ⟨c.1, c.2⟩
                chosen_action_summary :=
                  "Heading to wait near ".data ++ lm.landmark_name ++
                    " (it is occupied).".data
                primary_decision_drivers := parsed.priority_analysis
                llm_full_reasoning_text := parsed.reasoning }
        | none =>
          let c := clampPositionToBounds tpos.x tpos.y req.scene_boundaries
            SCENE_BOUNDARY_BUFFER
          .ok { target_destination := ⟨c.1, c.2⟩
                chosen_action_summary := parsed.chosen_action
                primary_decision_drivers := parsed.priority_analysis
                llm_full_reasoning_text := parsed.reasoning }
      else
        let c := clampPositionToBounds tpos.x tpos.y req.scene_boundaries
          SCENE_BOUNDARY_BUFFER
        .ok { target_destination := ⟨c.1, c.2⟩
              chosen_action_summary := parsed.chosen_action
              primary_decision_drivers := parsed.priority_analysis
              llm_full_reasoning_text := parsed.reasoning }
    | none =>
      let c := clampPositionToBounds tpos.x tpos.y req.scene_boundaries
        SCENE_BOUNDARY_BUFFER
      .ok { target_destination := ⟨c.1, c.2⟩
            chosen_action_summary := parsed.chosen_action
            primary_decision_drivers := parsed.priority_analysis
            llm_full_reasoning_text := parsed.reasoning }
  | none =>
    match findFallbackExplorationTarget o.rng req.npc_id
        req.current_npc_position req.visible_landmarks req.scene_boundaries
        hist req.current_game_time req.nearby_entities with
    | .error e => .error e
    | .ok f =>
      .ok { target_destination := ⟨f.1, f.2⟩
            chosen_action_summary := fallbackActionString f.1 f.2
            primary_decision_drivers :=
              { parsed.priority_analysis with exploration_driven := true }
            llm_full_reasoning_text := parsed.reasoning }

/-! ### Concrete fixtures used by the scenario theorems and witnesses -/

/-- A parser oracle on which every text-processing collaborator fails:
cleaning yields the empty string, YAML loading raises, no regex matches. -/
def trivParserOracle : ParserOracle where
  clean := fun _ => []
  yamlLoad := fun _ => none
  paBlock := fun _ => none
  flagYes := fun _ _ => false
  reasoningMatch := fun _ => none
  actionMatch := fun _ => none
  coordsMatch := fun _ => none
  emotionMatch := fun _ => none

/-- Randomness fixture for the LLM-failure scenario: no ray points are
modelled and both emergency draws land at the centre of the 10×10 scene. -/
def c1Rng : FallbackRng where
  randomPoints := []
  jitter := fun _ => 0
  emergency1 := ⟨5, 5⟩
  emergency2 := ⟨5, 5⟩

/-- Randomness fixture for the LLM-failure scenario: a single ray point at
(8,5), far enough from the origin to survive the triviality filter. -/
def c1RngRaise : FallbackRng where
  randomPoints := [⟨8, 5⟩]
  jitter := fun _ => 0
  emergency1 := ⟨5, 5⟩
  emergency2 := ⟨5, 5⟩

/-- Oracle for the LLM-failure scenario: the chat-completion call raises
(e.g. a connection error) and the fallback planner generates the single ray
point of `c1RngRaise`. -/
def c1OracleRaise : MovementOracle where
  llmResult := .error ()
  parserO := trivParserOracle
  parseCoords := fun _ => none
  rng := c1RngRaise

/-- Request fixture for the LLM-failure scenario: NPC at the origin of a
10×10 scene with no landmarks or neighbours. -/
def c1Req : NPCMovementRequest where
  npc_id := "alice".data
  current_npc_position := ⟨0, 0⟩
  current_game_time := some 0
  visible_landmarks := []
  nearby_entities := []
  scene_boundaries := ⟨0, 10, 0, 10⟩

/-- The occupied bathroom of the redirect scenario: "WC" at (5,5), marked
occupied by another NPC, with a single entrance at (4,5). -/
def wcLandmark : LandmarkContextInfo where
  landmark_name := "WC".data
  position := ⟨5, 5⟩
  landmark_type_tag := some "bathroom".data
  owner_id := none
  current_status_notes := ["occupancy_occupied_by_bob".data]
  entrance_positions := [⟨4, 5⟩]

/-- Request fixture for the redirect scenario: NPC "alice" at (0,0) in a
10×10 scene seeing only the occupied bathroom. -/
def c5Req : NPCMovementRequest where
  npc_id := "alice".data
  current_npc_position := ⟨0, 0⟩
  current_game_time := some 0
  visible_landmarks := [wcLandmark]
  nearby_entities := []
  scene_boundaries := ⟨0, 10, 0, 10⟩

/-- Parser oracle for the redirect scenario: the YAML tier decodes the LLM
response into a mapping naming the action "use the bathroom" and the target
coordinate text "(5, 5)". -/
def c5ParserOracle : ParserOracle where
  clean := fun s => s
  yamlLoad := fun _ => some (.vMap
    [("chosen_action".data, .vStr "use the bathroom".data),
     ("target_coordinates".data, .vStr "(5, 5)".data),
     ("resulting_emotion_tag".data, .vStr "no_change".data)])
  paBlock := fun _ => none
  flagYes := fun _ _ => false
  reasoningMatch := fun _ => none
  actionMatch := fun _ => none
  coordsMatch := fun _ => none
  emotionMatch := fun _ => none

/-- Oracle for the redirect scenario: the LLM answers, the coordinate text
"(5, 5)" parses to the point (5,5). -/
def c5Oracle : MovementOracle where
  llmResult := .ok "yaml".data
  parserO := c5ParserOracle
  parseCoords := fun s => if s = "(5, 5)".data then some (5, 5) else none
  rng := c1Rng

/-- A bedroom owned by a different NPC with an empty status-note list, at
distance 10 from the origin (inside the fallback search band). -/
def c6Bedroom : LandmarkContextInfo where
  landmark_name := "BobRoom".data
  position := ⟨10, 0⟩
  landmark_type_tag := some "bedroom".data
  owner_id := some "bob".data
  current_status_notes := []
  entrance_positions := []

/-- A bedroom owned by a different NPC whose status notes mark the owner
absent (used to instantiate the amended accessibility rule). -/
def c6BedroomAbsent : LandmarkContextInfo where
  landmark_name := "BobRoom".data
  position := ⟨10, 0⟩
  landmark_type_tag := some "bedroom".data
  owner_id := some "bob".data
  current_status_notes := ["owner_presence_absent".data]
  entrance_positions := []

/-- Twenty-one visit entries, used to exercise the bounded-history theorem
past the capacity. -/
def c8Entries : List VisitedLocationEntry :=
  List.replicate 21 ⟨0, 0, 0⟩

/-! ## Helper lemmas about the clamp -/

/-- Both buffer-degradation conditionals of `clampAxisRange` collapse: the
effective minimum is always `minV + buffer`, the effective maximum always
`maxV - buffer`, so the final range is the order-normalized pair of the
two. -/
theorem clampAxisRange_eq (a b c : ℚ) :
    clampAxisRange a b c = (min (a + c) (b - c), max (a + c) (b - c)) := by
  simp only [clampAxisRange]
  rcases lt_or_le (a + 2 * c) b with h | h
  · have h1 : a + c ≤ b - c := by linarith
    rw [if_pos h, if_pos (show a < b - 2 * c by linarith)]
    simp only [Prod.mk.injEq]
    constructor
    · rw [min_eq_left h1, max_comm (b - c) (a + c), max_eq_right h1]
      exact min_eq_left h1
    · rw [min_eq_left h1, max_comm (b - c) (a + c), max_eq_right h1]
      exact max_eq_right h1
  · rw [if_neg (not_lt.mpr h),
      if_neg (show ¬a < b - 2 * c by intro hh; linarith),
      min_self, max_self]

/-- The clamp range never inverts. -/
theorem clampAxisRange_fst_le_snd (a b c : ℚ) :
    (clampAxisRange a b c).1 ≤ (clampAxisRange a b c).2 := by
  rw [clampAxisRange_eq]
  exact min_le_max

/-- One clamped axis stays inside `[a, b]` whenever the buffer is
non-negative and at most the axis span. -/
theorem clampAxis_mem (a b c z : ℚ) (hc : 0 ≤ c) (hspan : c ≤ b - a) :
    a ≤ max (clampAxisRange a b c).1 (min z (clampAxisRange a b c).2) ∧
    max (clampAxisRange a b c).1 (min z (clampAxisRange a b c).2) ≤ b := by
  rw [clampAxisRange_eq]
  constructor
  · exact le_trans (le_min (by linarith) (by linarith)) (le_max_left _ _)
  · exact max_le (le_trans (min_le_right _ _) (by linarith))
      (le_trans (min_le_right _ _) (max_le (by linarith) (by linarith)))

/-- The clamped point stays inside the raw boundary box whenever the buffer
is non-negative and at most the boundary span on each axis. -/
theorem clamp_in_box (x y : ℚ) (bounds : SceneBoundaryInfo) (buffer : ℚ)
    (hb : 0 ≤ buffer) (hx : buffer ≤ bounds.max_x - bounds.min_x)
    (hy : buffer ≤ bounds.max_y - bounds.min_y) :
    bounds.min_x ≤ (clampPositionToBounds x y bounds buffer).1 ∧
    (clampPositionToBounds x y bounds buffer).1 ≤ bounds.max_x ∧
    bounds.min_y ≤ (clampPositionToBounds x y bounds buffer).2 ∧
    (clampPositionToBounds x y bounds buffer).2 ≤ bounds.max_y := by
  have hxm := clampAxis_mem bounds.min_x bounds.max_x buffer x hb hx
  have hym := clampAxis_mem bounds.min_y bounds.max_y buffer y hb hy
  exact ⟨hxm.1, hxm.2, hym.1, hym.2⟩

/-- Clamping a value already inside the normalized range is the identity of
the `max fm (min z fM)` combinator. -/
theorem clampAxis_idem (m M z : ℚ) (h : m ≤ M) :
    max m (min (max m (min z M)) M) = max m (min z M) := by
  have h1 : max m (min z M) ≤ M := max_le h (min_le_right _ _)
  rw [min_eq_left h1, max_eq_right (le_max_left _ _)]

/-! ## C4 — boundary invariant of `clamp_position_to_bounds` -/

/-- C4 counterexample: with the boundary `[0,10] × [0,10]` and buffer `12`
(a non-negative buffer exceeding the boundary span), the input `(-5, 0)`
clamps to `(-2, 0)`, whose x-coordinate lies OUTSIDE `[min_x, max_x]`.  The
frozen claim asserts containment for every non-negative buffer; the code
violates it once the buffer exceeds the span. -/
theorem clamp_position_in_bounds_cex :
    (clampPositionToBounds (-5) 0 ⟨0, 10, 0, 10⟩ 12).1 = -2 ∧
    ¬((⟨0, 10, 0, 10⟩ : SceneBoundaryInfo).min_x ≤
        (clampPositionToBounds (-5) 0 ⟨0, 10, 0, 10⟩ 12).1) := by
  norm_num [clampPositionToBounds, clampAxisRange, min_def, max_def]

/-- C4 (amended): for every input point, every boundary, and every
non-negative buffer that is at most the boundary span on each axis (which
includes every buffer exceeding half the span), the clamped point's x lies
in `[min_x, max_x]` and its y in `[min_y, max_y]`. -/
theorem clamp_position_in_bounds (x y : ℚ) (bounds : SceneBoundaryInfo)
    (buffer : ℚ) (hb : 0 ≤ buffer)
    (hx : buffer ≤ bounds.max_x - bounds.min_x)
    (hy : buffer ≤ bounds.max_y - bounds.min_y) :
    bounds.min_x ≤ (clampPositionToBounds x y bounds buffer).1 ∧
    (clampPositionToBounds x y bounds buffer).1 ≤ bounds.max_x ∧
    bounds.min_y ≤ (clampPositionToBounds x y bounds buffer).2 ∧
    (clampPositionToBounds x y bounds buffer).2 ≤ bounds.max_y :=
  clamp_in_box x y bounds buffer hb hx hy

/-- Witness for C4 at the spec's own boundary-clamp scenario: boundary
`[0,10] × [0,10]`, buffer `1`, input `(15, -3)`. -/
theorem clamp_position_in_bounds_witness :
    ((0 : ℚ) ≤ 1 ∧
      (1 : ℚ) ≤ (⟨0, 10, 0, 10⟩ : SceneBoundaryInfo).max_x -
        (⟨0, 10, 0, 10⟩ : SceneBoundaryInfo).min_x ∧
      (1 : ℚ) ≤ (⟨0, 10, 0, 10⟩ : SceneBoundaryInfo).max_y -
        (⟨0, 10, 0, 10⟩ : SceneBoundaryInfo).min_y) ∧
    ((⟨0, 10, 0, 10⟩ : SceneBoundaryInfo).min_x ≤
        (clampPositionToBounds 15 (-3) ⟨0, 10, 0, 10⟩ 1).1 ∧
      (clampPositionToBounds 15 (-3) ⟨0, 10, 0, 10⟩ 1).1 ≤
        (⟨0, 10, 0, 10⟩ : SceneBoundaryInfo).max_x ∧
      (⟨0, 10, 0, 10⟩ : SceneBoundaryInfo).min_y ≤
        (clampPositionToBounds 15 (-3) ⟨0, 10, 0, 10⟩ 1).2 ∧
      (clampPositionToBounds 15 (-3) ⟨0, 10, 0, 10⟩ 1).2 ≤
        (⟨0, 10, 0, 10⟩ : SceneBoundaryInfo).max_y) :=
  ⟨⟨by norm_num, by norm_num, by norm_num⟩,
   clamp_position_in_bounds 15 (-3) ⟨0, 10, 0, 10⟩ 1 (by norm_num)
     (by norm_num) (by norm_num)⟩

/-! ## C9 — idempotence of `clamp_position_to_bounds` -/

/-- C9: `clamp_position_to_bounds` is idempotent — re-clamping its own
output with the same boundary and buffer returns the output unchanged, for
every input point, boundary, and buffer (no validity assumption is even
needed, since the `final_min ≤ final_max` normalization of the source makes
the clamp range well-ordered unconditionally). -/
theorem clamp_position_idempotent (x y : ℚ) (bounds : SceneBoundaryInfo)
    (buffer : ℚ) :
    clampPositionToBounds (clampPositionToBounds x y bounds buffer).1
      (clampPositionToBounds x y bounds buffer).2 bounds buffer =
      clampPositionToBounds x y bounds buffer := by
  unfold clampPositionToBounds
  dsimp only
  simp only [Prod.mk.injEq]
  exact ⟨clampAxis_idem _ _ _ (clampAxisRange_fst_le_snd _ _ _),
    clampAxis_idem _ _ _ (clampAxisRange_fst_le_snd _ _ _)⟩

/-! ## C3 — `has_been_visited_recently` -/

/-- C3 counterexample: a single visit recorded at time `t0 = 100`, queried
at the same spot with reference time `50 < t0` (negative elapsed time),
yields `true` — the source imposes no lower bound on
`time_since_visit.total_seconds()`, so the claim's "returns false for any
reference time earlier than the visit" fails. -/
theorem visited_recently_cex :
    hasBeenVisitedRecently [⟨0, 0, 100⟩] 0 0 50 = true := by
  norm_num [hasBeenVisitedRecently, dist2, VISIT_THRESHOLD_DISTANCE,
    REVISIT_INTERVAL_SECONDS]

/-- C3 (amended): `has_been_visited_recently` returns true iff some
short-term entry is within `VISIT_THRESHOLD_DISTANCE` of the query point
(squared comparison) and its elapsed time before the reference time is less
than `REVISIT_INTERVAL_SECONDS` — with NO lower bound on the elapsed time:
entries visited at or after the reference time (zero or negative elapsed
time) also count as recent. -/
theorem visited_recently_iff (hist : List VisitedLocationEntry)
    (x y t : ℚ) :
    hasBeenVisitedRecently hist x y t = true ↔
      ∃ loc ∈ hist,
        dist2 ⟨loc.x, loc.y⟩ ⟨x, y⟩ < VISIT_THRESHOLD_DISTANCE ^ 2 ∧
        t - loc.timestamp_visited < REVISIT_INTERVAL_SECONDS := by
  simp [hasBeenVisitedRecently, List.any_eq_true]

/-! ## C7 / C10 — `save_memory_to_file` -/

/-- C7: `save_memory_to_file` attempts the durable write exactly when the
record is dirty or the save is forced AND a cached record exists; after the
call the dirty flag is cleared on a successful write and otherwise keeps its
previous value (in particular it remains set when a write of a dirty record
fails).  The `except` branch of the source swallows the error, which the
total embedding reflects: no exception reaches the caller. -/
theorem save_memory_dirty_contract (st : MemState) (forceSave : Bool)
    (now : ℚ) (writeOk : Bool) :
    (saveMemoryToFile st forceSave now writeOk).2 =
      ((st.isDirty || forceSave) && st.cached.isSome) ∧
    (saveMemoryToFile st forceSave now writeOk).1.isDirty =
      (st.isDirty &&
        !((st.isDirty || forceSave) && st.cached.isSome && writeOk)) := by
  obtain ⟨c, d⟩ := st
  cases c <;> cases d <;> cases forceSave <;> cases writeOk <;>
    simp [saveMemoryToFile]

/-- C10: on a service whose cache was never loaded (`_cached_memory_data`
is `None`), `save_memory_to_file` is a no-op for every combination of the
dirty flag, the `force_save` argument (including `True`), and the write
outcome: no write is attempted and the state — dirty flag included — is
returned unchanged. -/
theorem save_unloaded_cache_noop (d forceSave writeOk : Bool) (now : ℚ) :
    saveMemoryToFile ⟨none, d⟩ forceSave now writeOk =
      (⟨none, d⟩, false) := by
  cases d <;> cases forceSave <;> simp [saveMemoryToFile]

/-! ## C8 — bounded visit history -/

/-- Dropping at most the first segment distributes over an append. -/
theorem drop_append_left (l₁ l₂ : List α) (k : Nat) (h : k ≤ l₁.length) :
    (l₁ ++ l₂).drop k = l₁.drop k ++ l₂ := by
  induction l₁ generalizing k with
  | nil =>
    have hk : k = 0 := Nat.le_zero.mp h
    subst hk
    simp
  | cons a as ih =>
    cases k with
    | zero => simp
    | succ n =>
      simp only [List.cons_append, List.drop_succ_cons]
      exact ih n (Nat.le_of_succ_le_succ h)

/-- The length of `lastN n l` is `min n l.length`. -/
theorem length_lastN (n : Nat) (l : List α) :
    (lastN n l).length = min n l.length := by
  simp only [lastN, List.length_drop]
  omega

/-- Retruncating an already truncated history after a single append agrees
with truncating the full history: the last `n` of `lastN n l ++ [e]` are the
last `n` of `l ++ [e]`. -/
theorem lastN_append_lastN (n : Nat) (l : List α) (e : α) :
    lastN n (lastN n l ++ [e]) = lastN n (l ++ [e]) := by
  unfold lastN
  rcases Nat.le_total l.length n with h | h
  · have h1 : l.length - n = 0 := by omega
    rw [h1, List.drop_zero]
  · rcases Nat.eq_zero_or_pos n with h0 | h0
    · subst h0
      have h1 : l.length - 0 = l.length := by omega
      rw [h1, List.drop_length]
      simp
    · have hlen : (l.drop (l.length - n)).length = n := by
        rw [List.length_drop]; omega
      have h2 : (l.drop (l.length - n) ++ [e]).length - n = 1 := by
        rw [List.length_append, hlen]; simp
      rw [h2, drop_append_left _ _ 1 (by omega), List.drop_drop,
        drop_append_left _ _ ((l ++ [e]).length - n)
          (by rw [List.length_append]; simp; omega)]
      have h3 : l.length - n + 1 = (l ++ [e]).length - n := by
        rw [List.length_append]; simp; omega
      rw [h3]

/-- Replaying any visit sequence through `add_visited_location` from an
empty history yields exactly the last `MAX_LOCATIONS_IN_MEMORY` entries of
the sequence, in order. -/
theorem foldl_addVisited_eq (es : List VisitedLocationEntry) :
    es.foldl
        (fun h e => addVisitedLocation h e.x e.y e.timestamp_visited) [] =
      lastN MAX_LOCATIONS_IN_MEMORY es := by
  induction es using List.reverseRecOn with
  | nil => simp [lastN]
  | append_singleton es e ih =>
    rw [List.foldl_append, List.foldl_cons, List.foldl_nil, ih]
    show addVisitedLocation _ e.x e.y e.timestamp_visited = _
    unfold addVisitedLocation
    have he : (⟨e.x, e.y, e.timestamp_visited⟩ : VisitedLocationEntry) = e :=
      rfl
    rw [he, lastN_append_lastN]

/-- C8: every call to `add_visited_location` leaves at most
`MAX_LOCATIONS_IN_MEMORY` entries in the short-term history, and after a
sequence of more than `MAX_LOCATIONS_IN_MEMORY` appends (starting from an
empty history) the history holds exactly the most recent
`MAX_LOCATIONS_IN_MEMORY` entries in append order — the oldest entries
having been dropped first. -/
theorem add_visited_bounded_history (hist : List VisitedLocationEntry)
    (x y t : ℚ) (es : List VisitedLocationEntry)
    (hlen : MAX_LOCATIONS_IN_MEMORY < es.length) :
    (addVisitedLocation hist x y t).length ≤ MAX_LOCATIONS_IN_MEMORY ∧
    es.foldl
        (fun h e => addVisitedLocation h e.x e.y e.timestamp_visited) [] =
      lastN MAX_LOCATIONS_IN_MEMORY es ∧
    (es.foldl
        (fun h e => addVisitedLocation h e.x e.y e.timestamp_visited)
        []).length = MAX_LOCATIONS_IN_MEMORY := by
  refine ⟨?_, foldl_addVisited_eq es, ?_⟩
  · unfold addVisitedLocation lastN
    simp only [List.length_drop]
    omega
  · rw [foldl_addVisited_eq, length_lastN]
    omega

/-- Witness for C8: replaying twenty-one concrete visits. -/
theorem add_visited_bounded_history_witness :
    MAX_LOCATIONS_IN_MEMORY < c8Entries.length ∧
    ((addVisitedLocation [] 0 0 0).length ≤ MAX_LOCATIONS_IN_MEMORY ∧
     c8Entries.foldl
         (fun h e => addVisitedLocation h e.x e.y e.timestamp_visited) [] =
       lastN MAX_LOCATIONS_IN_MEMORY c8Entries ∧
     (c8Entries.foldl
         (fun h e => addVisitedLocation h e.x e.y e.timestamp_visited)
         []).length = MAX_LOCATIONS_IN_MEMORY) :=
  ⟨by decide, add_visited_bounded_history [] 0 0 0 c8Entries (by decide)⟩

/-! ## C6 — bedroom accessibility in the fallback planner -/

/-- C6 counterexample: a bedroom owned by a different NPC ("bob" ≠ "alice")
with an EMPTY status-note list is judged accessible by the fallback
accessibility check and therefore appears in the fallback candidate set
(here at distance 10, inside the search band, with base score 50).  The
frozen claim asserts such a bedroom is inaccessible unless a note marks the
owner present; the code instead only excludes it when a note marks the owner
ABSENT. -/
theorem bedroom_access_cex :
    fallbackAccessible "alice".data c6Bedroom = true ∧
    landmarkCandidates "alice".data ⟨0, 0⟩ [c6Bedroom] =
      [⟨10, 0, 50⟩] := by
  have hacc : fallbackAccessible "alice".data c6Bedroom = true := by decide
  have hband : inSearchBand ⟨0, 0⟩ c6Bedroom.position = true := by
    simp only [inSearchBand, decide_eq_true_eq, c6Bedroom, dist2]
    norm_num [MIN_SEARCH_DISTANCE_FOR_NEW_POINT,
      MAX_SEARCH_DISTANCE_FOR_NEW_POINT]
  have hscore : landmarkBaseScore "alice".data c6Bedroom = 50 := by decide
  refine ⟨hacc, ?_⟩
  simp only [landmarkCandidates, List.filterMap, hacc, hband, Bool.and_self,
    if_pos, hscore]
  simp [c6Bedroom]

/-- C6 (amended): a bedroom whose (truthy) owner differs from the
requesting NPC is inaccessible to the fallback planner IFF some status note
contains `"owner_presence_absent"`; in particular, with an empty status-note
list it remains accessible (and hence a fallback candidate when inside the
search band), contrary to the claim's default-deny reading. -/
theorem bedroom_access_amended (npcId owner : PyStr)
    (lm : LandmarkContextInfo)
    (htag : lm.landmark_type_tag = some "bedroom".data)
    (hown : lm.owner_id = some owner) (hne : owner ≠ [])
    (hdiff : pyLower owner ≠ pyLower npcId) :
    fallbackAccessible npcId lm =
      !lm.current_status_notes.any fun note =>
        containsSub (pyLower note) "owner_presence_absent".data := by
  unfold fallbackAccessible
  rw [htag, hown]
  rw [if_neg (by decide : ¬(some "bedroom".data = some "bathroom".data))]
  dsimp only
  rw [if_pos ⟨rfl, hne, hdiff⟩]

/-- Witness for C6 (amended) at a bedroom whose notes mark the owner
absent. -/
theorem bedroom_access_amended_witness :
    (c6BedroomAbsent.landmark_type_tag = some "bedroom".data ∧
     c6BedroomAbsent.owner_id = some "bob".data ∧
     "bob".data ≠ ([] : PyStr) ∧
     pyLower "bob".data ≠ pyLower "alice".data) ∧
    fallbackAccessible "alice".data c6BedroomAbsent =
      !c6BedroomAbsent.current_status_notes.any fun note =>
        containsSub (pyLower note) "owner_presence_absent".data :=
  ⟨⟨rfl, rfl, by decide, by decide⟩,
   bedroom_access_amended "alice".data "bob".data c6BedroomAbsent rfl rfl
     (by decide) (by decide)⟩

/-! ## C2 — parser total-function property -/

/-- C2: for every oracle behaviour and every input string, the parser
returns a complete `ParsedDecision` (the record type carries all five keys
and the translated function is total, so no exception can propagate); and
whenever the input is blank or entirely unparseable — the YAML tier yields
no mapping and no fallback regex matches — the result is exactly the
safe-default record: every priority flag false, the placeholder reasoning,
the placeholder action, no target coordinates, and emotion tag
`"no_change"`. -/
theorem parser_returns_defaults (o : ParserOracle) (s : PyStr)
    (h : pyBlank s = true ∨ entirelyUnparseable o s) :
    parseStructuredLlmMovementOutput o s =
      { priority_analysis := ⟨false, false, false, false, false, false, false⟩
        reasoning :=
          "LLM did not provide clear reasoning or response was unparsable.".data
        chosen_action := "No specific action determined by LLM.".data
        target_coordinates := none
        resulting_emotion_tag := "no_change".data } := by
  show parseStructuredLlmMovementOutput o s = defaultParsedDecision
  simp only [parseStructuredLlmMovementOutput]
  rcases h with ht | hu
  · rw [if_pos ht]
  · rcases hu with ⟨hy, hpa, hre, hac, hco, hem⟩
    by_cases ht : pyBlank s = true
    · rw [if_pos ht]
    · rw [if_neg ht]
      by_cases hc : (o.clean s).isEmpty = true
      · rw [if_pos hc]
      · rw [if_neg hc]
        cases hyl : o.yamlLoad (o.clean s) with
        | none =>
          simp only [hpa, hre, hac, hco, hem, Option.getD_none]
        | some v =>
          cases v with
          | vMap d => exact absurd hyl (hy d)
          | vStr st =>
            simp only [hpa, hre, hac, hco, hem, Option.getD_none]
          | vNull =>
            simp only [hpa, hre, hac, hco, hem, Option.getD_none]

/-- Witness for C2 at the empty input with the trivial oracle. -/
theorem parser_returns_defaults_witness :
    (pyBlank [] = true ∨ entirelyUnparseable trivParserOracle []) ∧
    parseStructuredLlmMovementOutput trivParserOracle [] =
      { priority_analysis := ⟨false, false, false, false, false, false, false⟩
        reasoning :=
          "LLM did not provide clear reasoning or response was unparsable.".data
        chosen_action := "No specific action determined by LLM.".data
        target_coordinates := none
        resulting_emotion_tag := "no_change".data } :=
  ⟨Or.inl rfl, parser_returns_defaults trivParserOracle [] (Or.inl rfl)⟩

/-! ## C1 — LLM failure path of the decision engine -/

/-- C1 (code bug): at a concrete failing input — the chat-completion call
raises, the NPC has ONE recorded visit in its short-term history, the game
time is valid, and the fallback generates one ray point that survives the
triviality filter — the translated `decide_npc_movement` raises instead of
returning a `MovementDecision`: the fallback's revisit check
(movement_service.py line 225) passes the raw `datetime` into
`has_been_visited_recently`, whose body dereferences `.current_timestamp`
on it (npc_memory_service.py line 208), an `AttributeError` outside the
engine's try/except.  The claim (and the spec's never-raises contract) is
therefore right about the intent and the code is wrong: the call site
violates the callee's own `GameTime` type annotation. -/
theorem movement_llm_failure_raises :
    decideNpcMovement c1OracleRaise c1Req [⟨0, 0, 0⟩] =
      Except.error () := by
  have hclamp : clampPositionToBounds 8 5 ⟨0, 10, 0, 10⟩
      SCENE_BOUNDARY_BUFFER = (8, 5) := by
    norm_num [clampPositionToBounds, clampAxisRange, SCENE_BOUNDARY_BUFFER,
      min_def, max_def]
  have hsc : scoreCandidate c1RngRaise ⟨0, 0⟩ ⟨0, 10, 0, 10⟩ [⟨0, 0, 0⟩]
      (some 0) [] 0 ⟨8, 5, 30⟩ = Except.error () := by
    simp only [scoreCandidate]
    rw [hclamp]
    rw [if_neg (show ¬dist2 ⟨0, 0⟩ ⟨(8, 5).1, (8, 5).2⟩ <
        (MIN_SEARCH_DISTANCE_FOR_NEW_POINT * (3 / 10)) ^ 2 by
      norm_num [dist2, MIN_SEARCH_DISTANCE_FOR_NEW_POINT])]
    rfl
  have hloop : scoreCandidatesLoop c1RngRaise ⟨0, 0⟩ ⟨0, 10, 0, 10⟩
      [⟨0, 0, 0⟩] (some 0) [] [(0, ⟨8, 5, 30⟩)] = Except.error () := by
    simp only [scoreCandidatesLoop, hsc]
  have hfb : findFallbackExplorationTarget c1RngRaise "alice".data ⟨0, 0⟩
      [] ⟨0, 10, 0, 10⟩ [⟨0, 0, 0⟩] (some 0) [] = Except.error () := by
    simp only [findFallbackExplorationTarget]
    rw [if_neg (show ¬fallbackPotentialTargets c1RngRaise "alice".data
        ⟨0, 0⟩ [] = [] by simp [fallbackPotentialTargets, c1RngRaise,
          landmarkCandidates])]
    have hen : fallbackScoredTargets c1RngRaise "alice".data ⟨0, 0⟩ []
        ⟨0, 10, 0, 10⟩ [⟨0, 0, 0⟩] (some 0) [] = Except.error () := by
      have hpt : (fallbackPotentialTargets c1RngRaise "alice".data ⟨0, 0⟩
          []).enum = [(0, ⟨8, 5, 30⟩)] := rfl
      rw [fallbackScoredTargets, hpt, hloop]
    rw [hen]
  simp only [decideNpcMovement, c1OracleRaise, c1Req]
  rw [hfb]

/-! ## C5 — occupied bathroom redirect scenario -/

/-- C5: with the NPC at (0,0), the single bathroom landmark "WC" at (5,5)
marked occupied by another NPC with entrance list [(4,5)], and an LLM
output naming target (5,5) with action "use the bathroom", the engine
returns normally (this path never reaches the fallback planner's faulty
revisit call) and its final target is exactly (4,5) — the nearest entrance,
unchanged by the clamp — while the chosen action text mentions waiting
("wait") near "WC" instead of the LLM's original action. -/
theorem occupied_bathroom_redirect :
    ∃ d, decideNpcMovement c5Oracle c5Req [] = Except.ok d ∧
      d.target_destination = ⟨4, 5⟩ ∧
      containsSub d.chosen_action_summary "wait".data = true ∧
      containsSub d.chosen_action_summary "WC".data = true ∧
      d.chosen_action_summary ≠ "use the bathroom".data := by
  have hparse : parseStructuredLlmMovementOutput c5ParserOracle
      "yaml".data =
      { priority_analysis := ⟨false, false, false, false, false, false, false⟩
        reasoning :=
          "LLM did not provide clear reasoning or response was unparsable.".data
        chosen_action := "use the bathroom".data
        target_coordinates := some "(5, 5)".data
        resulting_emotion_tag := "no_change".data } := by decide
  have hprox : getLandmarkByProximity ⟨5, 5⟩ [wcLandmark] =
      some wcLandmark := by
    simp only [getLandmarkByProximity, argminBy, List.foldl_nil]
    rw [if_pos (show dist2 wcLandmark.position ⟨5, 5⟩ < 2 ^ 2 by
      norm_num [dist2, wcLandmark])]
  have hocc : wcLandmark.landmark_type_tag = some "bathroom".data ∧
      bathroomOccupiedByOther "alice".data wcLandmark = true :=
    ⟨rfl, by decide⟩
  have hmin : argminBy (fun p => dist2 (⟨0, 0⟩ : Position) p)
      wcLandmark.entrance_positions = some ⟨4, 5⟩ := rfl
  have hclamp : clampPositionToBounds 4 5 ⟨0, 10, 0, 10⟩
      (SCENE_BOUNDARY_BUFFER * (1 / 2)) = (4, 5) := by
    norm_num [clampPositionToBounds, clampAxisRange, SCENE_BOUNDARY_BUFFER,
      min_def, max_def]
  have hdec : decideNpcMovement c5Oracle c5Req [] = Except.ok
      { target_destination := ⟨4, 5⟩
        chosen_action_summary := "Heading to wait near ".data ++
          "WC".data ++ " (it is occupied).".data
        primary_decision_drivers :=
          ⟨false, false, false, false, false, false, false⟩
        llm_full_reasoning_text :=
          "LLM did not provide clear reasoning or response was unparsable.".data
      } := by
    simp only [decideNpcMovement, c5Oracle, c5Req]
    rw [hparse]
    dsimp only
    rw [if_pos (show "(5, 5)".data ≠ [] by decide)]
    rw [if_pos (show "(5, 5)".data = "(5, 5)".data from rfl)]
    simp only [Option.map_some']
    rw [hprox]
    dsimp only
    rw [if_pos hocc, hmin]
    dsimp only
    rw [hclamp]
    rfl
  exact ⟨_, hdec, rfl, by decide, by decide, by decide⟩

end Npc
